import Mathlib

/-!
Verification development for the cdm-tree-browser tree data engine.

The definitions below are a shallow embedding of the TypeScript sources:

* `TreeNode`, `Provider` — the runtime node shape and the data-provider
  contract (`src/sharedTypes.ts`, `src/providers/berdlProvider.tsx`).
* `applyProviderProperties`, `fetchRootNodesForProvider`,
  `loadChildNodesForNode`, `initialTreeStructure`, `findNodeInTree` —
  the tree query manager (`src/treeQueryManager.ts`).
* `RNode`, `updateNodeInTree` — the structure-sharing tree mutator
  (`src/treeQueryManager.ts`, `updateNodeInTree`), embedded with explicit
  object identities (`oid`) so that JavaScript reference (in)equality
  (`!==`) is expressible.
* `UseQueryOptions`, `childNodesQueryOptions`, `rootNodesQueryOptions`,
  `attemptQuery`, `runQuery` — the query options passed at
  `TreeNodeRenderer.tsx` / `TreeDataLoader.tsx` and a model of the query
  cache numeric retry policy.
* `shouldRestore`, `replayOpens` — the open-state restoration effect in
  `TreeNodeRenderer.tsx`.

Opaque runtime values (React icon elements, info renderer functions, menu
item objects, provider payloads) are represented by `String` tags; the
session context / execution channel is an arbitrary type parameter `χ`
threaded through unchanged, and asynchronous functions are modelled as
functions into `Except`.
-/

namespace CDM

/-- A tree node as it exists at runtime in the browser: the fields of
`BaseTreeNodeType` plus the provider-applied fields of `TreeNodeType`
(`src/sharedTypes.ts`).  `none` models a JavaScript `undefined` field;
`children = none` means "not yet loaded" while `children = some []` means
"loaded, no children". -/
inductive TreeNode : Type where
  | mk (id name type : String) (icon : Option String) (isParentNode : Option Bool)
       (infoRenderer : Option String) (menuItems : Option (List String))
       (data : Option String) (children : Option (List TreeNode))

def TreeNode.id : TreeNode → String
  | .mk i _ _ _ _ _ _ _ _ => i

def TreeNode.name : TreeNode → String
  | .mk _ n _ _ _ _ _ _ _ => n

def TreeNode.type : TreeNode → String
  | .mk _ _ t _ _ _ _ _ _ => t

def TreeNode.icon : TreeNode → Option String
  | .mk _ _ _ ic _ _ _ _ _ => ic

def TreeNode.isParentNode : TreeNode → Option Bool
  | .mk _ _ _ _ ipn _ _ _ _ => ipn

def TreeNode.infoRenderer : TreeNode → Option String
  | .mk _ _ _ _ _ ir _ _ _ => ir

def TreeNode.menuItems : TreeNode → Option (List String)
  | .mk _ _ _ _ _ _ mi _ _ => mi

def TreeNode.data : TreeNode → Option String
  | .mk _ _ _ _ _ _ _ d _ => d

def TreeNode.children : TreeNode → Option (List TreeNode)
  | .mk _ _ _ _ _ _ _ _ c => c

/-- JavaScript `a || b` on possibly-`undefined` object-valued expressions
(the values that occur here — React elements — are always truthy when
present). -/
def jsOr {α : Type} : Option α → Option α → Option α
  | some a, _ => some a
  | none, b => b

/-- The data-provider contract `ITreeDataProvider` (`src/sharedTypes.ts`),
including the per-type `menuItems` table carried by the provider object
(`src/providers/berdlProvider.tsx`).  `χ` is the opaque `SessionContext`
execution channel.  The per-type maps are total functions returning
`Option`, modelling JavaScript map lookup with `undefined` misses. -/
structure Provider (χ : Type) where
  name : String
  supportedNodeTypes : List String
  parentNodeTypes : List String
  fetchRootNodes : χ → Except String (List TreeNode)
  fetchChildNodes : String → Option (TreeNode → χ → Except String (List TreeNode))
  icon : Option String
  nodeTypeIcons : String → Option String
  nodeTypeInfoRenderers : String → Option String
  menuItems : String → Option (List String)

/-- The generic fallback icon `React.createElement(\x27span\x27)`
(`src/treeQueryManager.ts`), represented by its tag. -/
def genericFallbackIcon : String := "span"

/-- `applyProviderProperties` (`src/treeQueryManager.ts` lines 23-39): maps
over the fetched nodes, spreading each node and overriding
`icon` (node icon `||` provider per-type icon `||` generic fallback),
`isParentNode` (membership of the node type in `parentNodeTypes`),
`infoRenderer` (provider per-type table lookup), and recursing into
`children` when present (`[]` is truthy in JavaScript, so an empty loaded
list is still mapped).  All other fields — in particular `menuItems` and
`data` — are carried over by the spread unchanged. -/
def applyProviderProperties {χ : Type} (p : Provider χ) : List TreeNode → List TreeNode
  | [] => []
  | (TreeNode.mk i nm ty ic _ipn _ir mi d ch) :: rest =>
    (TreeNode.mk i nm ty
      (jsOr ic (jsOr (p.nodeTypeIcons ty) (some genericFallbackIcon)))
      (some (p.parentNodeTypes.contains ty))
      (p.nodeTypeInfoRenderers ty)
      mi d
      (match ch with
       | some cs => some (applyProviderProperties p cs)
       | none => none))
    :: applyProviderProperties p rest

/-- Errors arising from the tree query manager, as JavaScript exceptions:
`jsError` is a `throw new Error(message)`; `typeError` is the uncontrolled
`TypeError` raised by a property access on `undefined`; `channelError`
is a rejection propagated unchanged from a provider fetch function. -/
inductive JsError : Type where
  | jsError (message : String)
  | typeError
  | channelError (message : String)

/-- `findNodeInTree` (`src/treeQueryManager.ts` lines 111-133): for each
node of the current level, first compare its `id`, then (if it has a
`children` array, empty or not) search the children with the current node
appended to the ancestor accumulator, and fall through to the remaining
siblings only when the subtree search misses. -/
def findNodeInTree (nodeId : String) : List TreeNode → List TreeNode → Option (TreeNode × List TreeNode)
  | [], _anc => none
  | (TreeNode.mk i nm ty ic ipn ir mi d none) :: rest, anc =>
    if i == nodeId then some (TreeNode.mk i nm ty ic ipn ir mi d none, anc)
    else findNodeInTree nodeId rest anc
  | (TreeNode.mk i nm ty ic ipn ir mi d (some cs)) :: rest, anc =>
    if i == nodeId then some (TreeNode.mk i nm ty ic ipn ir mi d (some cs), anc)
    else
      match findNodeInTree nodeId cs (anc ++ [TreeNode.mk i nm ty ic ipn ir mi d (some cs)]) with
      | some result => some result
      | none => findNodeInTree nodeId rest anc

/-- `fetchRootNodesForProvider` (`src/treeQueryManager.ts` lines 42-52):
look the provider up by name (a miss throws), invoke `fetchRootNodes`,
and decorate the result with `applyProviderProperties`. -/
def fetchRootNodesForProvider {χ : Type} (providers : List (Provider χ))
    (providerName : String) (sessionContext : χ) : Except JsError (List TreeNode) :=
  match providers.find? (fun p => p.name == providerName) with
  | none => .error (.jsError ("Tree data provider \x27" ++ providerName ++ "\x27 not found"))
  | some provider =>
    match provider.fetchRootNodes sessionContext with
    | .error e => .error (.channelError e)
    | .ok nodes => .ok (applyProviderProperties provider nodes)

/-- `loadChildNodesForNode` (`src/treeQueryManager.ts` lines 55-83): locate
the node (a miss throws "node not found"); read `ancestors[0].name` — on an
empty ancestor list `ancestors[0]` is `undefined` and the `.name` access
raises a `TypeError`; look the provider up by that name (a miss throws);
look up `fetchChildNodes[node.type]` (a miss throws the configuration
error); invoke the child loader and decorate its result with
`applyProviderProperties`. -/
def loadChildNodesForNode {χ : Type} (providers : List (Provider χ)) (nodeId : String)
    (treeData : List TreeNode) (sessionContext : χ) : Except JsError (List TreeNode) :=
  match findNodeInTree nodeId treeData [] with
  | none => .error (.jsError ("Tree node with id \x27" ++ nodeId ++ "\x27 not found"))
  | some (node, ancestors) =>
    match ancestors with
    | [] => .error .typeError
    | a0 :: _ =>
      match providers.find? (fun p => p.name == a0.name) with
      | none => .error (.jsError ("Tree data provider \x27" ++ a0.name ++ "\x27 not found"))
      | some provider =>
        match provider.fetchChildNodes node.type with
        | none => .error (.jsError ("No child loader found for node type \x27" ++ node.type ++ "\x27"))
        | some childLoader =>
          match childLoader node sessionContext with
          | .error e => .error (.channelError e)
          | .ok childNodes => .ok (applyProviderProperties provider childNodes)

/-- `initialTreeStructure` (`src/treeQueryManager.ts` lines 86-92): one
synthetic root per provider, in registration order, with id
`tree-root-` followed by the provider name, the provider name as label,
the reserved type `ROOT`, the provider icon or the generic fallback, the
parent flag set, and every other field (`children` included) absent. -/
def initialTreeStructure {χ : Type} (providers : List (Provider χ)) : List TreeNode :=
  providers.map (fun provider =>
    TreeNode.mk ("tree-root-" ++ provider.name) provider.name "ROOT"
      (jsOr provider.icon (some genericFallbackIcon)) (some true) none none none none)

/-! ## The tree mutator, with explicit object identities

`updateNodeInTree` (`src/treeQueryManager.ts` lines 143-171) promises
structural sharing through reference equality, so its embedding makes
JavaScript object identity explicit: every node object and every
children-array object carries an allocation id `oid`, and a `Nat` counter
threaded through the computation supplies fresh allocation ids.  Two
occurrences are the same JavaScript reference exactly when they carry the
same `oid` (provided the counter starts above every allocated id). -/

/-- A tree node together with the identities of the node object itself
(`oid`) and, when `children` is present, of its children array
(first component of the pair). -/
inductive RNode : Type where
  | mk (oid : Nat) (id : String) (name : String) (children : Option (Nat × List RNode))

def RNode.oid : RNode → Nat
  | .mk o _ _ _ => o

def RNode.id : RNode → String
  | .mk _ i _ _ => i

def RNode.children : RNode → Option (Nat × List RNode)
  | .mk _ _ _ c => c

/-- The body of the `treeData.map(...)` callback in `updateNodeInTree`,
applied to each element of the level in order: a node whose `id` matches
is replaced by `updatedNode` (the same reference that was passed in); a
node with a `children` array recursively maps its children — JavaScript
`Array.prototype.map` always allocates a fresh result array, embedded
here as the fresh id `c1` — and then compares `updatedChildren !==
node.children` by array identity, spreading the node into a freshly
allocated object when the identities differ and returning the node
reference itself otherwise; a node without children is returned by
reference. -/
def updateNodeElems (nodeId : String) (updatedNode : RNode) : List RNode → Nat → List RNode × Nat
  | [], c => ([], c)
  | RNode.mk o i nm none :: rest, c =>
    let self := if i == nodeId then updatedNode else RNode.mk o i nm none
    let (rest', c2) := updateNodeElems nodeId updatedNode rest c
    (self :: rest', c2)
  | RNode.mk o i nm (some (aoid, cs)) :: rest, c =>
    if i == nodeId then
      let (rest', c2) := updateNodeElems nodeId updatedNode rest c
      (updatedNode :: rest', c2)
    else
      let (cs', c1) := updateNodeElems nodeId updatedNode cs c
      let updatedChildrenOid := c1
      let (self, c3) :=
        if updatedChildrenOid != aoid then
          (RNode.mk (c1 + 1) i nm (some (updatedChildrenOid, cs')), c1 + 2)
        else
          (RNode.mk o i nm (some (aoid, cs)), c1 + 1)
      let (rest', c4) := updateNodeElems nodeId updatedNode rest c3
      (self :: rest', c4)

/-- `updateNodeInTree` (`src/treeQueryManager.ts` lines 143-171): maps the
top level through `updateNodeElems`; the result of `treeData.map(...)` is
itself a freshly allocated array, whose identity (the counter value after
mapping the elements) is the first component of the result. -/
def updateNodeInTree (treeData : List RNode) (nodeId : String) (updatedNode : RNode) (ctr : Nat) :
    (Nat × List RNode) × Nat :=
  let mappedAndCtr := updateNodeElems nodeId updatedNode treeData ctr
  ((mappedAndCtr.2, mappedAndCtr.1), mappedAndCtr.2 + 1)

/-! ## The fetch scheduler options and retry model -/

/-- The `useQuery` options object relevant to caching and retry. -/
structure UseQueryOptions : Type where
  staleTime : Nat
  retry : Nat
  retryDelay : Nat → Nat

/-- The options passed to `useQuery` for a child fetch
(`src/TreeNodeRenderer.tsx` lines 105-113): cache for five minutes, retry
twice, with a fixed delay of 1000 ms between attempts. -/
def childNodesQueryOptions : UseQueryOptions where
  staleTime := 5 * 60 * 1000
  retry := 2
  retryDelay := fun _attemptIndex => 1000

/-- The options passed to `useQuery` for a root fetch
(`src/TreeDataLoader.tsx` lines 64-72): cache for ten minutes, retry three
times, with delay `min(1000 * 2 ** attemptIndex, 30000)` ms. -/
def rootNodesQueryOptions : UseQueryOptions where
  staleTime := 10 * 60 * 1000
  retry := 3
  retryDelay := fun attemptIndex => min (1000 * 2 ^ attemptIndex) 30000

/-- Modelled from the spec: the retry loop of the Fetch Scheduler (section
4.5), realised in the source by the external query-cache library, whose
implementation is not part of this repository.  A numeric `retry` option
re-runs the query function after any failure, regardless of the kind of
error, until it succeeds or `retry` additional attempts have failed.  The
second component counts how many times the query function was invoked. -/
def attemptQuery {E α : Type} (queryFn : Nat → Except E α) : Nat → Nat → Except E α × Nat
  | attemptIndex, remaining =>
    match queryFn attemptIndex with
    | .ok a => (.ok a, 1)
    | .error e =>
      match remaining with
      | 0 => (.error e, 1)
      | r + 1 =>
        let (res, k) := attemptQuery queryFn (attemptIndex + 1) r
        (res, k + 1)

/-- Run a query under a numeric `retry` option, starting at attempt 0. -/
def runQuery {E α : Type} (retry : Nat) (queryFn : Nat → Except E α) : Except E α × Nat :=
  attemptQuery queryFn 0 retry

/-- Modelled from the spec: the delay schedule the spec calls
"exponential backoff between attempts, capped at 30 seconds", as realised
by the root fetch configuration. -/
def specExponentialBackoff (attemptIndex : Nat) : Nat :=
  min (1000 * 2 ^ attemptIndex) 30000

/-! ## Open-state restoration -/

/-- The view of a rendered tree node that the restoration effect consults
(`react-arborist` node handle): its id, whether it is currently open, and
whether it is a leaf. -/
structure ArboristNode : Type where
  id : String
  isOpen : Bool
  isLeaf : Bool

/-- The `shouldRestore` condition of the restoration effect
(`src/TreeNodeRenderer.tsx` lines 137-151): the id is in the persisted
open set, the node is not currently open, and the node is not a leaf. -/
def shouldRestore (restoreOpenNodeIds : List String) (n : ArboristNode) : Bool :=
  restoreOpenNodeIds.contains n.id && !n.isOpen && !n.isLeaf

/-- Whether the restoration effect programmatically opens node `n`:
`shouldRestore` must hold and `tree.get(node.id)` must return a handle
(`treeHas`). -/
def replayOpens (restoreOpenNodeIds : List String) (n : ArboristNode) (treeHas : Bool) : Bool :=
  shouldRestore restoreOpenNodeIds n && treeHas

/-! ## Specification-side definitions

These definitions follow the words of the spec, not the source, and exist
only to be compared with the source-derived definitions above. -/

/-- Modelled from the spec: the pre-order listing of every node of a
forest, each paired with its chain of strict ancestors in root-to-parent
order, the accumulator `anc` holding the ancestors of the current level. -/
def preorderPairs (anc : List TreeNode) : List TreeNode → List (TreeNode × List TreeNode)
  | [] => []
  | (TreeNode.mk i nm ty ic ipn ir mi d none) :: rest =>
    (TreeNode.mk i nm ty ic ipn ir mi d none, anc) :: preorderPairs anc rest
  | (TreeNode.mk i nm ty ic ipn ir mi d (some cs)) :: rest =>
    (TreeNode.mk i nm ty ic ipn ir mi d (some cs), anc) ::
      (preorderPairs (anc ++ [TreeNode.mk i nm ty ic ipn ir mi d (some cs)]) cs
        ++ preorderPairs anc rest)

/-! ## Concrete fixtures

Small concrete providers and snapshots used to instantiate the theorems:
`menuProvider` declares a per-type menu-items table; `provC2` reproduces
Scenario C of the spec (parent type `a` with no `fetchChildNodes.a`
entry); `provD` is a fully wired provider whose child loader succeeds. -/

def menuNodeA : TreeNode := .mk "na" "node-a" "a" none none none none none none

def menuNodeB : TreeNode := .mk "nb" "node-b" "b" none none none none none none

def menuProvider : Provider Unit where
  name := "P"
  supportedNodeTypes := ["a", "b"]
  parentNodeTypes := ["a"]
  fetchRootNodes := fun _ => .ok [menuNodeA, menuNodeB]
  fetchChildNodes := fun _ => none
  icon := none
  nodeTypeIcons := fun _ => none
  nodeTypeInfoRenderers := fun _ => none
  menuItems := fun t => if t == "a" then some ["open"] else none

def provC2 : Provider Unit where
  name := "PC"
  supportedNodeTypes := ["a"]
  parentNodeTypes := ["a"]
  fetchRootNodes := fun _ => .ok []
  fetchChildNodes := fun _ => none
  icon := none
  nodeTypeIcons := fun _ => none
  nodeTypeInfoRenderers := fun _ => none
  menuItems := fun _ => none

def treeC2 : List TreeNode :=
  [TreeNode.mk "tree-root-PC" "PC" "ROOT" (some "span") (some true) none none none
    (some [TreeNode.mk "a1" "child" "a" none (some true) none none none none])]

def leafNode1 : TreeNode := .mk "leaf1" "leaf one" "leaf" none none none none none none

def leafNode2 : TreeNode := .mk "leaf2" "leaf two" "leaf" none none none none none none

def provD : Provider Unit where
  name := "PD"
  supportedNodeTypes := ["a", "leaf"]
  parentNodeTypes := ["a"]
  fetchRootNodes := fun _ => .ok [TreeNode.mk "a1" "child" "a" none none none none none none]
  fetchChildNodes := fun t =>
    if t == "a" then some (fun _node _ctx => .ok [leafNode1, leafNode2]) else none
  icon := some "db-icon"
  nodeTypeIcons := fun t => if t == "leaf" then some "leaf-icon" else none
  nodeTypeInfoRenderers := fun _ => none
  menuItems := fun _ => none

def treeD : List TreeNode :=
  [TreeNode.mk "tree-root-PD" "PD" "ROOT" (some "db-icon") (some true) none none none
    (some [TreeNode.mk "a1" "child" "a" none (some true) none none none none])]

/-! ## Helper lemmas about the JavaScript or-else -/

theorem jsOr_some_left {α : Type} (a : α) (y : Option α) : jsOr (some a) y = some a := rfl

theorem jsOr_none_left {α : Type} (y : Option α) : jsOr none y = y := rfl

theorem jsOr_absorb {α : Type} (t : Option α) (b : α) (y : Option α) :
    jsOr (jsOr t (some b)) y = jsOr t (some b) := by
  cases t <;> rfl

theorem jsOr_some_getD {α : Type} (t : Option α) (b : α) :
    jsOr t (some b) = some (t.getD b) := by
  cases t <;> rfl

/-! ## Helper lemmas about decoration -/

/-- Decoration never touches the `menuItems` field: the spread carries the
node-provided value through unchanged. -/
theorem applyProviderProperties_menuItems {χ : Type} (p : Provider χ) :
    (nodes : List TreeNode) →
      (applyProviderProperties p nodes).map TreeNode.menuItems = nodes.map TreeNode.menuItems
  | [] => by simp [applyProviderProperties]
  | (TreeNode.mk i nm ty ic ipn ir mi d none) :: rest => by
    simp [applyProviderProperties, TreeNode.menuItems]
    exact applyProviderProperties_menuItems p rest
  | (TreeNode.mk i nm ty ic ipn ir mi d (some cs)) :: rest => by
    simp [applyProviderProperties, TreeNode.menuItems]
    exact applyProviderProperties_menuItems p rest

/-- Decorating an already-decorated list with the same provider tables is
the identity: the icon is already resolved (and present, hence kept by
`||`), while the parent flag and info renderer are recomputed to the same
values, recursively through loaded children. -/
theorem applyProviderProperties_idem {χ : Type} (p : Provider χ) :
    (nodes : List TreeNode) →
      applyProviderProperties p (applyProviderProperties p nodes) = applyProviderProperties p nodes
  | [] => by simp [applyProviderProperties]
  | (TreeNode.mk i nm ty ic ipn ir mi d none) :: rest => by
    simp only [applyProviderProperties]
    refine congrArg₂ _ ?_ (applyProviderProperties_idem p rest)
    cases ic <;> simp [jsOr_some_left, jsOr_none_left, jsOr_absorb]
  | (TreeNode.mk i nm ty ic ipn ir mi d (some cs)) :: rest => by
    simp only [applyProviderProperties]
    refine congrArg₂ _ ?_ (applyProviderProperties_idem p rest)
    cases ic <;>
      simp [jsOr_some_left, jsOr_none_left, jsOr_absorb, applyProviderProperties_idem p cs]

/-- C4 (as corrected): decoration leaves `menuItems` untouched — the
decorated list has exactly the menu items the raw nodes carried. -/
theorem c4_menu_items_preserved {χ : Type} (p : Provider χ) (nodes : List TreeNode) :
    (applyProviderProperties p nodes).map TreeNode.menuItems = nodes.map TreeNode.menuItems :=
  applyProviderProperties_menuItems p nodes

/-- C4 counterexample: `menuProvider` declares a menu-items table entry
`["open"]` for type `a` and no entry for type `b`, yet decorating a raw
`a` node and a raw `b` node yields `menuItems = none` for both — neither
the table entry nor an empty list is attached. -/
theorem c4_menu_items_counterexample :
    (applyProviderProperties menuProvider [menuNodeA, menuNodeB]).map TreeNode.menuItems
        = [none, none]
      ∧ menuProvider.menuItems "a" = some ["open"]
      ∧ menuProvider.menuItems "b" = none
      ∧ (none : Option (List String)) ≠ some ["open"]
      ∧ (none : Option (List String)) ≠ some [] := by
  refine ⟨?_, ?_, ?_, by simp, by simp⟩
  · simp [applyProviderProperties, menuNodeA, menuNodeB, TreeNode.menuItems]
  · simp [menuProvider]
  · simp [menuProvider]

/-- C8: decoration is idempotent — applying `applyProviderProperties` to
an already-decorated forest with the same provider tables yields a
field-for-field equal forest (decoration is a pure function, so the input
value itself is never modified). -/
theorem c8_decoration_idempotent {χ : Type} (p : Provider χ) (nodes : List TreeNode) :
    applyProviderProperties p (applyProviderProperties p nodes) = applyProviderProperties p nodes :=
  applyProviderProperties_idem p nodes

/-! ## Helper lemmas about the node locator -/

/-- The locator agrees with the first match of the pre-order listing: the
search of `findNodeInTree`, started with accumulator `anc`, returns
exactly the first pair of `preorderPairs anc` whose node id matches. -/
theorem find_eq_preorderPairs (nodeId : String) :
    (ts : List TreeNode) → (anc : List TreeNode) →
      findNodeInTree nodeId ts anc = (preorderPairs anc ts).find? (fun q => q.1.id == nodeId)
  | [], anc => by simp [findNodeInTree, preorderPairs]
  | (TreeNode.mk i nm ty ic ipn ir mi d none) :: rest, anc => by
    have ih := find_eq_preorderPairs nodeId rest anc
    cases hi : i == nodeId <;>
      simp [findNodeInTree, preorderPairs, List.find?_cons, TreeNode.id, hi, ih]
  | (TreeNode.mk i nm ty ic ipn ir mi d (some cs)) :: rest, anc => by
    have ih1 := find_eq_preorderPairs nodeId cs
      (anc ++ [TreeNode.mk i nm ty ic ipn ir mi d (some cs)])
    have ih2 := find_eq_preorderPairs nodeId rest anc
    cases hi : i == nodeId with
    | true => simp [findNodeInTree, preorderPairs, List.find?_cons, TreeNode.id, hi]
    | false =>
      have hpred : (TreeNode.mk i nm ty ic ipn ir mi d (some cs)).id = i := rfl
      cases hx : (preorderPairs (anc ++ [TreeNode.mk i nm ty ic ipn ir mi d (some cs)]) cs).find?
          (fun q => q.1.id == nodeId) <;>
        simp [findNodeInTree, preorderPairs, List.find?_cons, hpred, hi,
          List.find?_append, ih1, ih2, hx, Option.or]

/-- Structure of the ancestor list produced by the locator: it extends the
accumulator by a (possibly empty) tail, and when the tail is nonempty its
head is a node of the searched level — in particular, searching a whole
forest from the empty accumulator yields either an empty ancestor list or
one headed by a top-level root of the forest. -/
theorem find_ancestors_structure (nodeId : String) :
    (ts : List TreeNode) → (anc : List TreeNode) → (n : TreeNode) → (l : List TreeNode) →
      findNodeInTree nodeId ts anc = some (n, l) →
      ∃ tail, l = anc ++ tail ∧ (tail = [] → n ∈ ts) ∧ (∀ a t', tail = a :: t' → a ∈ ts)
  | [], _anc, _n, _l => by intro h; simp [findNodeInTree] at h
  | (TreeNode.mk i nm ty ic ipn ir mi d none) :: rest, anc, n, l => by
    intro h
    cases hi : i == nodeId with
    | true =>
      simp [findNodeInTree, hi] at h
      exact ⟨[], by simp [h.2], fun _ => by simp [h.1], fun a t' ht => by simp at ht⟩
    | false =>
      simp only [findNodeInTree, hi, Bool.false_eq_true, if_false] at h
      obtain ⟨tail, htl, h0, hcons⟩ := find_ancestors_structure nodeId rest anc n l h
      exact ⟨tail, htl, fun he => List.mem_cons_of_mem _ (h0 he),
        fun a t' ht => List.mem_cons_of_mem _ (hcons a t' ht)⟩
  | (TreeNode.mk i nm ty ic ipn ir mi d (some cs)) :: rest, anc, n, l => by
    intro h
    cases hi : i == nodeId with
    | true =>
      simp [findNodeInTree, hi] at h
      exact ⟨[], by simp [h.2], fun _ => by simp [h.1], fun a t' ht => by simp at ht⟩
    | false =>
      simp only [findNodeInTree, hi, Bool.false_eq_true, if_false] at h
      cases hf : findNodeInTree nodeId cs (anc ++ [TreeNode.mk i nm ty ic ipn ir mi d (some cs)]) with
      | some result =>
        rw [hf] at h
        simp at h
        obtain ⟨tail', htl', _h0, _hcons⟩ :=
          find_ancestors_structure nodeId cs
            (anc ++ [TreeNode.mk i nm ty ic ipn ir mi d (some cs)]) n l (by rw [hf, h])
        refine ⟨TreeNode.mk i nm ty ic ipn ir mi d (some cs) :: tail', ?_, ?_, ?_⟩
        · rw [htl']; simp
        · intro he; simp at he
        · intro a t' ht
          injection ht with h1 _h2
          rw [← h1]
          exact List.mem_cons_self _ _
      | none =>
        rw [hf] at h
        obtain ⟨tail, htl, h0, hcons⟩ := find_ancestors_structure nodeId rest anc n l h
        exact ⟨tail, htl, fun he => List.mem_cons_of_mem _ (h0 he),
          fun a t' ht => List.mem_cons_of_mem _ (hcons a t' ht)⟩

/-- C6: the Node Locator is a pre-order search — on any forest it returns
exactly the first pre-order match together with its strict-ancestor chain
(root-first, excluding the matched node, as listed by `preorderPairs`);
when the ancestor chain is nonempty its head is a top-level root of the
forest (the synthetic provider root); and when no node of the pre-order
listing matches, the locator returns `none`. -/
theorem c6_locator_preorder (nodeId : String) (forest : List TreeNode) :
    (findNodeInTree nodeId forest [] =
        (preorderPairs [] forest).find? (fun q => q.1.id == nodeId))
      ∧ (∀ n a anc, findNodeInTree nodeId forest [] = some (n, a :: anc) → a ∈ forest)
      ∧ ((∀ q ∈ preorderPairs [] forest, ¬(q.1.id == nodeId) = true) →
          findNodeInTree nodeId forest [] = none) := by
  refine ⟨find_eq_preorderPairs nodeId forest [], ?_, ?_⟩
  · intro n a anc h
    obtain ⟨tail, htl, _h0, hcons⟩ := find_ancestors_structure nodeId forest [] n (a :: anc) h
    simp at htl
    exact hcons a anc htl.symm
  · intro hnone
    rw [find_eq_preorderPairs nodeId forest []]
    exact List.find?_eq_none.mpr hnone

/-- C6 witness: on the concrete snapshot `treeC2`, locating `a1` returns
the child node with the synthetic root as its single ancestor, and that
ancestor is a member of the forest; locating an id that appears nowhere
returns `none`. -/
theorem c6_locator_preorder_witness :
    (TreeNode.mk "tree-root-PC" "PC" "ROOT" (some "span") (some true) none none none
        (some [TreeNode.mk "a1" "child" "a" none (some true) none none none none]) ∈ treeC2)
      ∧ findNodeInTree "zz" treeC2 [] = none := by
  constructor
  · apply (c6_locator_preorder "a1" treeC2).2.1
      (TreeNode.mk "a1" "child" "a" none (some true) none none none none) _ []
    simp [treeC2, findNodeInTree]
  · apply (c6_locator_preorder "zz" treeC2).2.2
    intro q hq
    simp [treeC2, preorderPairs, TreeNode.id] at hq
    rcases hq with h | h <;> simp [h, TreeNode.id]

/-- C5: behavior of `loadChildNodesForNode` — a missing node id fails with
the controlled node-not-found error; when the node is found below the top
level, the owning provider is looked up by the name of the first ancestor
(a miss fails with the provider-not-found error); a missing
`fetchChildNodes` entry for the node type fails with the configuration
error; and a successful child load returns the loader result decorated by
`applyProviderProperties` — the same decoration `fetchRootNodesForProvider`
applies to a successful root fetch. -/
theorem c5_load_children_contract {χ : Type} (providers : List (Provider χ)) (nodeId : String)
    (treeData : List TreeNode) (chan : χ) :
    (findNodeInTree nodeId treeData [] = none →
        loadChildNodesForNode providers nodeId treeData chan =
          .error (.jsError ("Tree node with id \x27" ++ nodeId ++ "\x27 not found")))
      ∧ (∀ node a0 rest, findNodeInTree nodeId treeData [] = some (node, a0 :: rest) →
          (providers.find? (fun p => p.name == a0.name) = none →
              loadChildNodesForNode providers nodeId treeData chan =
                .error (.jsError ("Tree data provider \x27" ++ a0.name ++ "\x27 not found")))
            ∧ (∀ provider, providers.find? (fun p => p.name == a0.name) = some provider →
                (provider.fetchChildNodes node.type = none →
                    loadChildNodesForNode providers nodeId treeData chan =
                      .error (.jsError
                        ("No child loader found for node type \x27" ++ node.type ++ "\x27")))
                  ∧ (∀ childLoader childNodes,
                      provider.fetchChildNodes node.type = some childLoader →
                      childLoader node chan = .ok childNodes →
                      loadChildNodesForNode providers nodeId treeData chan =
                        .ok (applyProviderProperties provider childNodes))))
      ∧ (∀ providerName provider ns,
          providers.find? (fun p => p.name == providerName) = some provider →
          provider.fetchRootNodes chan = .ok ns →
          fetchRootNodesForProvider providers providerName chan =
            .ok (applyProviderProperties provider ns)) := by
  refine ⟨?_, ?_, ?_⟩
  · intro h
    simp [loadChildNodesForNode, h]
  · intro node a0 rest h
    refine ⟨?_, ?_⟩
    · intro hp
      simp [loadChildNodesForNode, h, hp]
    · intro provider hp
      refine ⟨?_, ?_⟩
      · intro hc
        simp [loadChildNodesForNode, h, hp, hc]
      · intro childLoader childNodes hc hl
        simp [loadChildNodesForNode, h, hp, hc, hl]
  · intro providerName provider ns hp hr
    simp [fetchRootNodesForProvider, hp, hr]

/-- C5 witness: on the concrete fixtures, a missing id yields the
node-not-found error, the unwired provider `provC2` yields the
configuration error for type `a`, and the wired provider `provD` returns
its two leaves decorated. -/
theorem c5_load_children_contract_witness :
    loadChildNodesForNode [provD] "missing-id" treeD () =
        .error (.jsError ("Tree node with id \x27missing-id\x27 not found"))
      ∧ loadChildNodesForNode [provC2] "a1" treeC2 () =
          .error (.jsError ("No child loader found for node type \x27a\x27"))
      ∧ loadChildNodesForNode [provD] "a1" treeD () =
          .ok (applyProviderProperties provD [leafNode1, leafNode2]) := by
  refine ⟨?_, ?_, ?_⟩
  · exact (c5_load_children_contract [provD] "missing-id" treeD ()).1
      (by simp [treeD, findNodeInTree])
  · have h := ((c5_load_children_contract [provC2] "a1" treeC2 ()).2.1
      (TreeNode.mk "a1" "child" "a" none (some true) none none none none)
      (TreeNode.mk "tree-root-PC" "PC" "ROOT" (some "span") (some true) none none none
        (some [TreeNode.mk "a1" "child" "a" none (some true) none none none none])) []
      (by simp [treeC2, findNodeInTree])).2 provC2 (by simp [provC2, TreeNode.name])
    exact h.1 (by simp [provC2, TreeNode.type])
  · have h := ((c5_load_children_contract [provD] "a1" treeD ()).2.1
      (TreeNode.mk "a1" "child" "a" none (some true) none none none none)
      (TreeNode.mk "tree-root-PD" "PD" "ROOT" (some "db-icon") (some true) none none none
        (some [TreeNode.mk "a1" "child" "a" none (some true) none none none none])) []
      (by simp [treeD, findNodeInTree])).2 provD (by simp [provD, TreeNode.name])
    exact h.2 (fun _node _ctx => .ok [leafNode1, leafNode2]) [leafNode1, leafNode2]
      (by simp [provD, TreeNode.type]) (by simp)

/-- C10: reading `ancestors[0].name` on the empty ancestor list is an
access on `undefined` — when the locator resolves the requested id to a
top-level forest node (empty ancestor chain), `loadChildNodesForNode`
fails with the uncontrolled `TypeError`, which is none of the three
declared `Error` messages; and the id of the first top-level node always
resolves this way. -/
theorem c10_toplevel_typeerror {χ : Type} (providers : List (Provider χ)) (nodeId : String)
    (treeData : List TreeNode) (chan : χ) :
    (∀ hd rest, treeData = hd :: rest → hd.id = nodeId →
        findNodeInTree nodeId treeData [] = some (hd, []))
      ∧ (∀ n, findNodeInTree nodeId treeData [] = some (n, []) →
          loadChildNodesForNode providers nodeId treeData chan = .error .typeError)
      ∧ (∀ msg, JsError.typeError ≠ JsError.jsError msg) := by
  refine ⟨?_, ?_, ?_⟩
  · rintro ⟨i, nm, ty, ic, ipn, ir, mi, d, ch⟩ rest rfl hid
    have hb : (i == nodeId) = true := by
      simp [TreeNode.id] at hid
      simp [hid]
    cases ch <;> simp [findNodeInTree, hb]
  · intro n h
    simp [loadChildNodesForNode, h]
  · intro msg h
    exact JsError.noConfusion h

/-- C10 witness: asking for the children of the synthetic root
`tree-root-P` of the one-provider forest produces the `TypeError`, not a
controlled error message. -/
theorem c10_toplevel_typeerror_witness :
    loadChildNodesForNode [menuProvider] "tree-root-P" (initialTreeStructure [menuProvider]) () =
      .error .typeError := by
  apply (c10_toplevel_typeerror [menuProvider] "tree-root-P"
    (initialTreeStructure [menuProvider]) ()).2.1
    (TreeNode.mk "tree-root-P" "P" "ROOT" (some "span") (some true) none none none none)
  simp [initialTreeStructure, menuProvider, findNodeInTree, jsOr, genericFallbackIcon]

/-- C7: `initialTreeStructure` has one synthetic root per registered
provider in registration order; the root at position `i` belongs to the
provider at position `i` and carries id `tree-root-` + name, the provider
name as label, the reserved type `ROOT`, the provider icon (or the generic
fallback when the provider declares none), the parent flag, and no
`children`, `infoRenderer` or `menuItems`. -/
theorem c7_initial_forest {χ : Type} (providers : List (Provider χ)) :
    (initialTreeStructure providers).length = providers.length
      ∧ ∀ (i : Nat) (p : Provider χ), providers[i]? = some p →
          ∃ n, (initialTreeStructure providers)[i]? = some n
            ∧ n.id = "tree-root-" ++ p.name
            ∧ n.name = p.name
            ∧ n.type = "ROOT"
            ∧ n.icon = some (p.icon.getD genericFallbackIcon)
            ∧ n.isParentNode = some true
            ∧ n.infoRenderer = none
            ∧ n.menuItems = none
            ∧ n.children = none := by
  constructor
  · simp [initialTreeStructure]
  · intro i p h
    refine ⟨TreeNode.mk ("tree-root-" ++ p.name) p.name "ROOT"
      (jsOr p.icon (some genericFallbackIcon)) (some true) none none none none, ?_, ?_⟩
    · simp [initialTreeStructure, List.getElem?_map, h]
    · simp [TreeNode.id, TreeNode.name, TreeNode.type, TreeNode.icon, TreeNode.isParentNode,
        TreeNode.infoRenderer, TreeNode.menuItems, TreeNode.children, jsOr_some_getD]

/-- C7 witness: the one-provider registry `[provD]` yields exactly one
root, `tree-root-PD`, carrying the provider icon and no children. -/
theorem c7_initial_forest_witness :
    (initialTreeStructure [provD]).length = 1
      ∧ ∃ n, (initialTreeStructure [provD])[0]? = some n
          ∧ n.id = "tree-root-PD"
          ∧ n.type = "ROOT"
          ∧ n.icon = some "db-icon"
          ∧ n.children = none := by
  have h := c7_initial_forest (χ := Unit) [provD]
  refine ⟨by simpa using h.1, ?_⟩
  obtain ⟨n, hn, hid, _hnm, hty, hic, _hp, _hir, _hmi, hch⟩ := h.2 0 provD (by simp)
  exact ⟨n, hn, by simpa [provD] using hid, hty, by simpa [provD] using hic, hch⟩

/-! ## Helper lemmas about the child loader -/

/-- Branch lemma: the configuration-error branch of `loadChildNodesForNode`. -/
theorem loadChildNodes_no_loader {χ : Type} (providers : List (Provider χ)) (nodeId : String)
    (treeData : List TreeNode) (chan : χ) (node a0 : TreeNode) (rest : List TreeNode)
    (h : findNodeInTree nodeId treeData [] = some (node, a0 :: rest))
    (provider : Provider χ)
    (hp : providers.find? (fun p => p.name == a0.name) = some provider)
    (hc : provider.fetchChildNodes node.type = none) :
    loadChildNodesForNode providers nodeId treeData chan =
      .error (.jsError ("No child loader found for node type \x27" ++ node.type ++ "\x27")) := by
  simp [loadChildNodesForNode, h, hp, hc]

/-- Evaluation of the Scenario C configuration error: expanding the `a`
node of `treeC2` under `provC2` (which declares `parentNodeTypes = [a]`
but omits `fetchChildNodes.a`) fails with the configuration error. -/
theorem load_provC2_eval :
    loadChildNodesForNode [provC2] "a1" treeC2 () =
      .error (.jsError ("No child loader found for node type \x27a\x27")) := by
  have h : findNodeInTree "a1" treeC2 [] =
      some (TreeNode.mk "a1" "child" "a" none (some true) none none none none,
        [TreeNode.mk "tree-root-PC" "PC" "ROOT" (some "span") (some true) none none none
          (some [TreeNode.mk "a1" "child" "a" none (some true) none none none none])]) := by
    simp [treeC2, findNodeInTree]
  have hp : [provC2].find? (fun p =>
      p.name == (TreeNode.mk "tree-root-PC" "PC" "ROOT" (some "span") (some true) none none none
        (some [TreeNode.mk "a1" "child" "a" none (some true) none none none none])).name)
      = some provC2 := by
    simp [provC2, TreeNode.name]
  have hc : provC2.fetchChildNodes
      (TreeNode.mk "a1" "child" "a" none (some true) none none none none).type = none := by
    simp [provC2, TreeNode.type]
  exact loadChildNodes_no_loader [provC2] "a1" treeC2 () _ _ _ h provC2 hp hc

/-! ## Helper lemmas about the retry model -/

/-- Under a query function that fails on every attempt, the retry loop
performs exactly `remaining + 1` invocations and reports the error. -/
theorem attemptQuery_const_error {E α : Type} (queryFn : Nat → Except E α) (e : E)
    (h : ∀ i, queryFn i = .error e) :
    (remaining : Nat) → (attemptIndex : Nat) →
      attemptQuery queryFn attemptIndex remaining = (.error e, remaining + 1)
  | 0, a => by simp [attemptQuery, h a]
  | r + 1, a => by
    simp [attemptQuery, h a, attemptQuery_const_error queryFn e h r (a + 1)]

/-- The retry loop never invokes the query function more than
`remaining + 1` times. -/
theorem attemptQuery_count_le {E α : Type} (queryFn : Nat → Except E α) :
    (remaining : Nat) → (attemptIndex : Nat) →
      (attemptQuery queryFn attemptIndex remaining).2 ≤ remaining + 1
  | 0, a => by cases h : queryFn a <;> simp [attemptQuery, h]
  | r + 1, a => by
    rw [attemptQuery]
    cases h : queryFn a with
    | ok v => simp [h]
    | error e =>
      have ih := attemptQuery_count_le queryFn r (a + 1)
      simp only [h]
      omega

/-- C2 (as corrected): the child query options pass a plain numeric
`retry`, so the scheduler retries every failure the same way — a query
function that fails identically on each attempt (as a configuration error
does, being deterministic in the inputs) is invoked `retry + 1 = 3` times,
not once. -/
theorem c2_config_error_is_retried {E α : Type} (queryFn : Nat → Except E α) (e : E)
    (h : ∀ i, queryFn i = .error e) :
    runQuery childNodesQueryOptions.retry queryFn = (.error e, 3) := by
  have := attemptQuery_const_error queryFn e h childNodesQueryOptions.retry 0
  simpa [runQuery, childNodesQueryOptions] using this

/-- C2 witness: in the Scenario C fixture the configuration error repeats
on every attempt, and the scheduler invokes the fetch three times. -/
theorem c2_config_error_is_retried_witness :
    runQuery childNodesQueryOptions.retry (fun _ => loadChildNodesForNode [provC2] "a1" treeC2 ()) =
      (.error (.jsError ("No child loader found for node type \x27a\x27")), 3) := by
  apply c2_config_error_is_retried
  intro i
  exact load_provC2_eval

/-- C2 counterexample: in the same scenario the number of underlying fetch
invocations is 3, refuting "the underlying fetch is invoked exactly once"
(zero retries) for configuration errors. -/
theorem c2_config_error_counterexample :
    (runQuery childNodesQueryOptions.retry
        (fun _ => loadChildNodesForNode [provC2] "a1" treeC2 ())).2 = 3
      ∧ (3 : Nat) ≠ 1 := by
  constructor
  · exact congrArg Prod.snd
      (attemptQuery_const_error (fun _ : Nat => loadChildNodesForNode [provC2] "a1" treeC2 ())
        (.jsError ("No child loader found for node type \x27a\x27"))
        (fun _ => load_provC2_eval) 2 0)
  · decide

/-- C3 (as corrected): the scheduler policy as configured — children retry
twice with a constant 1000 ms delay and a 5-minute cache; roots retry
three times with exponential backoff capped at 30 s and a 10-minute cache;
and under either `retry` budget the underlying fetch runs at most
`retry + 1` times. -/
theorem c3_retry_and_cache_policy :
    childNodesQueryOptions.retry = 2
      ∧ rootNodesQueryOptions.retry = 3
      ∧ (∀ i, childNodesQueryOptions.retryDelay i = 1000)
      ∧ (∀ i, rootNodesQueryOptions.retryDelay i = specExponentialBackoff i)
      ∧ childNodesQueryOptions.staleTime = 5 * 60 * 1000
      ∧ rootNodesQueryOptions.staleTime = 10 * 60 * 1000
      ∧ (∀ queryFn : Nat → Except String (List TreeNode),
          (runQuery childNodesQueryOptions.retry queryFn).2 ≤ 3)
      ∧ (∀ queryFn : Nat → Except String (List TreeNode),
          (runQuery rootNodesQueryOptions.retry queryFn).2 ≤ 4) := by
  refine ⟨rfl, rfl, fun i => rfl, fun i => rfl, rfl, rfl, ?_, ?_⟩
  · intro queryFn
    simpa [runQuery, childNodesQueryOptions] using attemptQuery_count_le queryFn 2 0
  · intro queryFn
    simpa [runQuery, rootNodesQueryOptions] using attemptQuery_count_le queryFn 3 0

/-- C3 counterexample: the delay before the second child retry is the
constant 1000 ms, while exponential backoff capped at 30 s prescribes
2000 ms — the child schedule is not exponential (the root schedule is). -/
theorem c3_child_delay_counterexample :
    childNodesQueryOptions.retryDelay 1 = 1000
      ∧ specExponentialBackoff 1 = 2000
      ∧ childNodesQueryOptions.retryDelay 1 ≠ specExponentialBackoff 1 := by
  refine ⟨rfl, by decide, by decide⟩

/-! ## Open-state restoration theorems -/

/-- C9 (as corrected): the restoration effect opens a rendered node
exactly when its id is in the persisted open set, it is not currently
open, it is not a leaf, and the tree holds a handle for it. -/
theorem c9_replay_condition (ids : List String) (n : ArboristNode) (treeHas : Bool) :
    replayOpens ids n treeHas = true ↔
      n.id ∈ ids ∧ n.isOpen = false ∧ n.isLeaf = false ∧ treeHas = true := by
  simp [replayOpens, shouldRestore, and_assoc]

/-- C9 counterexample: a rendered leaf node whose id is in the persisted
open set and which is not open is nevertheless not opened by the replay
step (the effect also requires the node not to be a leaf), refuting the
claim that every such node is opened. -/
theorem c9_leaf_counterexample :
    replayOpens ["x"] (ArboristNode.mk "x" false true) true = false
      ∧ (["x"].contains (ArboristNode.mk "x" false true).id
          && !(ArboristNode.mk "x" false true).isOpen) = true := by
  constructor
  · decide
  · decide

/-! ## Tree mutator theorems -/

/-- C1: evaluating `updateNodeInTree` on the two-root snapshot
`[rA, rB]` — where only `rA` contains the target `t` — shows the bug: the
recursive map always allocates a fresh children array, so the guard
`updatedChildren !== node.children` also fires for `rB`, whose subtree
does not contain the target, and `rB` is returned as a freshly allocated
object (allocation id 13) instead of by reference (its id is 3).  Its
childless child `rL` is still shared. -/
theorem c1_offpath_subtree_reallocated :
    ((updateNodeInTree
        [RNode.mk 0 "a" "a" (some (1, [RNode.mk 2 "t" "t" none])),
         RNode.mk 3 "b" "b" (some (4, [RNode.mk 5 "l" "l" none]))]
        "t" (RNode.mk 6 "t" "t-replacement" none) 10).1.2).map RNode.oid = [11, 13]
      ∧ (RNode.mk 3 "b" "b" (some (4, [RNode.mk 5 "l" "l" none]))).oid = 3
      ∧ ((updateNodeInTree
          [RNode.mk 0 "a" "a" (some (1, [RNode.mk 2 "t" "t" none])),
           RNode.mk 3 "b" "b" (some (4, [RNode.mk 5 "l" "l" none]))]
          "t" (RNode.mk 6 "t" "t-replacement" none) 10).1.2).getLast?
        = some (RNode.mk 13 "b" "b" (some (12, [RNode.mk 5 "l" "l" none]))) := by
  have hElems : updateNodeElems "t" (RNode.mk 6 "t" "t-replacement" none)
      [RNode.mk 0 "a" "a" (some (1, [RNode.mk 2 "t" "t" none])),
       RNode.mk 3 "b" "b" (some (4, [RNode.mk 5 "l" "l" none]))] 10
      = ([RNode.mk 11 "a" "a" (some (10, [RNode.mk 6 "t" "t-replacement" none])),
          RNode.mk 13 "b" "b" (some (12, [RNode.mk 5 "l" "l" none]))], 14) := by
    simp [updateNodeElems]
  refine ⟨?_, rfl, ?_⟩ <;>
    simp [updateNodeInTree, hElems, RNode.oid]

end CDM
